import Mathlib

/-!
Shallow embedding of the candy modal text editor (src/candy.c).

Conventions of the embedding:
* Characters and raw bytes are `Nat` (byte values); a row is the byte list
  stored in an `erow_t` (its `chars` up to `size`, without the trailing NUL).
* The C `numrows` field always equals `rows.length` in every defined-behaviour
  state (the one operation that could desynchronise them, `editor_del_row`
  called with `at == numrows`, reads and frees out of bounds and is modelled
  as undefined behaviour).
* Cursor coordinates `cx`/`cy` and the scroll offsets are `Int`, because the
  C code stores them in `int` and several commands drive them negative.
* Operations that can dereference invalid memory in C return `Option _`;
  `none` models undefined behaviour (out-of-bounds read/write, NULL or
  garbage pointer dereference).
* File-system success or failure of a save is outside the program; it enters
  the model as the boolean `io_ok` parameter of `editor_save`.
* The status-bar message text is abstracted into the enumeration `StatusMsg`
  (one constructor per distinct `editor_set_status_message` call site).
-/

inductive Mode
  | INSERT
  | VIEW
deriving DecidableEq, Repr

inductive StatusMsg
  | empty
  | provideFilename
  | saved
  | cantSave
  | saveBeforeQuit
  | undefinedCmd
deriving DecidableEq, Repr

/-- The global `struct EditorConfig` of candy.c, restricted to the fields the
modal core reads and writes.  `numrows` is represented by `rows.length`. -/
structure EditorConfig where
  mode : Mode
  cx : Int
  cy : Int
  rowoff : Int
  coloff : Int
  screen_rows : Int
  screen_cols : Int
  rows : List (List Nat)
  filename : Option (List Nat)
  status_msg : StatusMsg
  dirty : Nat
  cmd_size : Nat
  cmd_chars : List Nat
deriving DecidableEq, Repr

/-- `init_editor` (candy.c:822-842).  The `cmd.chars` array is never filled by
`init_editor`; as part of the zero-initialised global `config` it starts as
ten NUL bytes, not as the `_` sentinel used after the first command. -/
def init_editor (win_rows win_cols : Int) : EditorConfig :=
  { mode := Mode.VIEW
    cx := 0
    cy := 0
    rowoff := 0
    coloff := 0
    screen_rows := win_rows - 2
    screen_cols := win_cols
    rows := []
    filename := none
    status_msg := StatusMsg.empty
    dirty := 0
    cmd_size := 0
    cmd_chars := List.replicate 10 0 }

/-- `editor_insert_row` (candy.c:388-407): indices outside `[0, numrows]` are
silently ignored; otherwise the row is inserted and `dirty` incremented. -/
def editor_insert_row (s : EditorConfig) (pos : Int) (content : List Nat) : EditorConfig :=
  if pos < 0 ∨ (s.rows.length : Int) < pos then s
  else { s with rows := s.rows.insertIdx pos.toNat content, dirty := s.dirty + 1 }

/-- `editor_del_row` (candy.c:409-419).  The guard is `at < 0 || at > numrows`,
so `at == numrows` slips through: the code then frees `row[numrows].chars`
(one past the array) and calls `memmove` with byte count `-1` — undefined
behaviour, modelled as `none`. -/
def editor_del_row (s : EditorConfig) (pos : Int) : Option EditorConfig :=
  if pos < 0 ∨ (s.rows.length : Int) < pos then some s
  else if pos = (s.rows.length : Int) then none
  else some { s with rows := s.rows.eraseIdx pos.toNat, dirty := s.dirty + 1 }

/-- `editor_row_insert_char` (candy.c:421-432), effect on the row bytes:
an out-of-range index is clamped to `size` (append). -/
def row_insert_char (r : List Nat) (pos : Int) (c : Nat) : List Nat :=
  if pos < 0 ∨ (r.length : Int) < pos then r.insertIdx r.length c
  else r.insertIdx pos.toNat c

/-- `editor_row_insert_char` acting on row `idx` of the state; it always
increments `dirty`. -/
def editor_row_insert_char_st (s : EditorConfig) (idx : Nat) (pos : Int) (c : Nat) :
    EditorConfig :=
  { s with rows := s.rows.set idx (row_insert_char (s.rows.getD idx []) pos c)
           dirty := s.dirty + 1 }

/-- `editor_row_del_char` (candy.c:443-452) acting on row `idx`.  The guard
rejects `at < 0` and `at > size` (no-op, no dirty).  `at == size` passes the
guard: `memmove` copies zero bytes and `size--` chops the last character. -/
def editor_row_del_char_st (s : EditorConfig) (idx : Nat) (pos : Int) : EditorConfig :=
  let r := s.rows.getD idx []
  if pos < 0 ∨ (r.length : Int) < pos then s
  else if pos = (r.length : Int) then
    { s with rows := s.rows.set idx r.dropLast, dirty := s.dirty + 1 }
  else
    { s with rows := s.rows.set idx (r.eraseIdx pos.toNat), dirty := s.dirty + 1 }

/-- `editor_row_append_string` (candy.c:434-441) acting on row `idx`; note it
does not touch `dirty`. -/
def editor_row_append_string_st (s : EditorConfig) (idx : Nat) (str : List Nat) :
    EditorConfig :=
  { s with rows := s.rows.set idx (s.rows.getD idx [] ++ str) }

/-- `editor_insert_char` (candy.c:472-481): appends an empty row when the
cursor sits on the end-of-buffer sentinel line, then inserts at `cx`.
Dereferences `row[cy]`, hence `none` when `cy` is outside `[0, numrows]`. -/
def editor_insert_char (s : EditorConfig) (c : Nat) : Option EditorConfig :=
  let s1 := if s.cy = (s.rows.length : Int) then
    editor_insert_row s (s.rows.length : Int) [] else s
  if s1.cy < 0 ∨ (s1.rows.length : Int) ≤ s1.cy then none
  else
    let s2 := editor_row_insert_char_st s1 s1.cy.toNat s1.cx c
    some { s2 with cx := s2.cx + 1 }

/-- `editor_del_char` (candy.c:483-500).  Early return at the end-of-buffer
sentinel and at `(0,0)`; with `cx > 0` it deletes inside the row at
`cx + char_off` and shifts `cx` by `cx_off`; with `cx ≤ 0` (and `cy ≠ 0`) it
joins the row onto the previous one.  Dereferencing `row[cy]` with `cy`
outside `[0, numrows)` (after the guards) or `row[cy-1]` with `cy = 0` is
undefined behaviour. -/
def editor_del_char (s : EditorConfig) (char_off cx_off : Int) : Option EditorConfig :=
  if s.cy = (s.rows.length : Int) ∨ (s.cx = 0 ∧ s.cy = 0) then some s
  else if s.cy < 0 ∨ (s.rows.length : Int) < s.cy then none
  else if s.cx > 0 then
    let s1 := editor_row_del_char_st s s.cy.toNat (s.cx + char_off)
    some { s1 with cx := s1.cx + cx_off }
  else if s.cy = 0 then none
  else
    let prev := s.rows.getD (s.cy.toNat - 1) []
    let cur := s.rows.getD s.cy.toNat []
    let s1 := { s with cx := (prev.length : Int) }
    let s2 := editor_row_append_string_st s1 (s.cy.toNat - 1) cur
    (editor_del_row s2 s.cy).map (fun s3 => { s3 with cy := s3.cy - 1 })

/-- `editor_insert_new_line` (candy.c:456-470): at column 0 an empty row is
inserted before the current one; otherwise the current row is split at `cx`
(`[0,cx)` kept, `[cx,end)` inserted after).  The cursor moves to the start of
the following row.  Reading `row->chars[cx]` with `cx` outside `[0, size]`,
or `row[cy]` with `cy` outside `[0, numrows)`, is undefined behaviour. -/
def editor_insert_new_line (s : EditorConfig) : Option EditorConfig :=
  if s.cx = 0 then
    some { editor_insert_row s s.cy [] with cy := s.cy + 1, cx := 0 }
  else if s.cy < 0 ∨ (s.rows.length : Int) ≤ s.cy then none
  else
    let r := s.rows.getD s.cy.toNat []
    if s.cx < 0 ∨ (r.length : Int) < s.cx then none
    else
      let s1 := editor_insert_row s (s.cy + 1) (r.drop s.cx.toNat)
      let s2 := { s1 with rows := s1.rows.set s.cy.toNat (r.take s.cx.toNat) }
      some { s2 with cy := s2.cy + 1, cx := 0 }

/-- `editor_rows_to_string` (candy.c:504-522): every row followed by exactly
one `\n` (byte 10), including the last row. -/
def editor_rows_to_string (rows : List (List Nat)) : List Nat :=
  rows.foldr (fun r acc => r ++ 10 :: acc) []

/-- The `getline` loop of `editor_open` (candy.c:538): splits the byte stream
into lines, each including its terminating newline byte; a trailing fragment
without a newline is a final line of its own; at end of input `getline`
returns -1 and the loop stops. -/
def getline_split : List Nat → List (List Nat)
  | [] => []
  | b :: rest =>
    if b = 10 then [10] :: getline_split rest
    else
      match getline_split rest with
      | [] => [[b]]
      | l :: ls => (b :: l) :: ls

/-- The stripping loop of `editor_open` (candy.c:539-541): removes every
trailing `\n` (10) or `\r` (13) byte from a line. -/
def strip_crlf (l : List Nat) : List Nat :=
  (l.reverse.dropWhile (fun c => c == 10 || c == 13)).reverse

/-- Row contents produced by loading a byte stream (candy.c:534-543). -/
def editor_load_bytes (bytes : List Nat) : List (List Nat) :=
  (getline_split bytes).map strip_crlf

/-- `editor_open` (candy.c:524-547) with the opened file's bytes supplied as
`contents`: records the filename, appends one stripped line per `getline`
via `editor_insert_row(numrows, ...)`, and finally resets `dirty` to 0. -/
def editor_open (contents : List Nat) (fname : List Nat) (s : EditorConfig) : EditorConfig :=
  let s1 := (editor_load_bytes contents).foldl
    (fun st line => editor_insert_row st (st.rows.length : Int) line)
    { s with filename := some fname }
  { s1 with dirty := 0 }

/-- `editor_save` (candy.c:549-583).  The filename is the explicit argument
if non-NULL, else `config.filename`; with neither, the save is refused with
a message.  `io_ok` abstracts success of the open/ftruncate/write sequence:
on success `dirty` resets to 0, on failure only the message changes. -/
def editor_save (io_ok : Bool) (new_filename : Option (List Nat)) (s : EditorConfig) :
    EditorConfig :=
  if new_filename = none ∧ s.filename = none then
    { s with status_msg := StatusMsg.provideFilename }
  else if io_ok then
    { s with dirty := 0, status_msg := StatusMsg.saved }
  else
    { s with status_msg := StatusMsg.cantSave }

/-- `editor_scroll` (candy.c:747-765). -/
def editor_scroll (s : EditorConfig) : EditorConfig :=
  let ro1 := if s.cy < s.rowoff then s.cy else s.rowoff
  let ro2 := if ro1 + s.screen_rows ≤ s.cy then s.cy - s.screen_rows + 1 else ro1
  let co1 := if s.cx < s.coloff then s.cx else s.coloff
  let co2 := if co1 + s.screen_cols ≤ s.cx then s.cx - s.screen_cols + 1 else co1
  { s with rowoff := ro2, coloff := co2 }

/-- The tail of `editor_move_cursor` (candy.c:670-672): re-resolve the row and
clamp `cx` to its length.  Line 672 dereferences `row->size` without the NULL
check, so a cursor line outside `[0, numrows)` is undefined behaviour. -/
def cursor_clamp (s : EditorConfig) : Option EditorConfig :=
  if s.cy < 0 ∨ (s.rows.length : Int) ≤ s.cy then none
  else
    let size : Int := ((s.rows.getD s.cy.toNat []).length : Int)
    some { s with cx := if s.cx > size then size else s.cx }

/-- Inner loop of the `w` motion (candy.c:623-628): first index `≥ j` holding
a non-space byte, scanning only `[j, r.length)`. -/
def w_find_nonspace (r : List Nat) (j : Nat) : Option Nat :=
  if h : j < r.length then
    if r.getD j 0 ≠ 32 then some j else w_find_nonspace r (j + 1)
  else none
termination_by r.length - j
decreasing_by omega

/-- Outer loop of the `w` motion (candy.c:620-643).  `r.getD (i+1) 0` models
reading `row->chars[i+1]`, which at `i+1 = size` reads the NUL terminator. -/
def w_loop (r : List Nat) (cx0 : Int) (i : Nat) : Int :=
  if h : i < r.length then
    let c := r.getD i 0
    if c = 32 then
      match w_find_nonspace r i with
      | some j => (j : Int)
      | none => w_loop r cx0 (i + 1)
    else if 33 ≤ c ∧ c ≤ 46 then
      if (i : Int) = cx0 then
        if r.getD (i + 1) 0 ≠ 32 then (i : Int) + 1
        else w_loop r cx0 (i + 1)
      else (i : Int)
    else w_loop r cx0 (i + 1)
  else cx0
termination_by r.length - i
decreasing_by all_goals omega

/-- The `w` case of `editor_move_cursor`: the loop starts at `i = cx`, so a
negative `cx` immediately reads `row->chars[cx]` out of bounds (`none`);
`cx ≥ size` ends the loop before any read. -/
def editor_move_w (r : List Nat) (cx : Int) : Option Int :=
  if cx < 0 then none
  else if (r.length : Int) ≤ cx then some cx
  else some (w_loop r cx cx.toNat)

/-- Inner loop of the `b` motion (candy.c:648-653): first index `≤ j` holding
a non-space byte, scanning downward. -/
def b_find_nonspace (r : List Nat) (j : Nat) : Option Nat :=
  if r.getD j 0 ≠ 32 then some j
  else if j = 0 then none
  else b_find_nonspace r (j - 1)
termination_by j
decreasing_by omega

/-- Outer loop of the `b` motion (candy.c:646-667).  Result `some (some v)`
is a `return` with `cx = v`; `some none` is loop exhaustion (control falls
through to the clamp); `none` is the `chars[i-1]` read at `i = 0`. -/
def b_loop (r : List Nat) (cx0 : Int) (i : Nat) : Option (Option Int) :=
  let c := r.getD i 0
  if c = 32 then
    match b_find_nonspace r i with
    | some j => some (some (j : Int))
    | none => if i = 0 then some none else b_loop r cx0 (i - 1)
  else if 33 ≤ c ∧ c ≤ 46 then
    if (i : Int) = cx0 then
      if i = 0 then none
      else if r.getD (i - 1) 0 ≠ 32 then some (some ((i : Int) - 1))
      else b_loop r cx0 (i - 1)
    else some (some (i : Int))
  else if i = 0 then some none else b_loop r cx0 (i - 1)
termination_by i
decreasing_by all_goals omega

/-- The `b` case of `editor_move_cursor`: with `cx < 0` the loop body never
runs (fall through to the clamp); `cx > size` starts by reading past the
NUL; `cx = size` reads the NUL itself, which is defined. -/
def editor_move_b (r : List Nat) (cx : Int) : Option (Option Int) :=
  if cx < 0 then some none
  else if (r.length : Int) < cx then none
  else b_loop r cx cx.toNat

/-- `editor_move_cursor` (candy.c:587-673).  Key bytes: j=106 k=107 h=104
l=108 Ctrl-D=4 Ctrl-U=21 dollar=36 zero=48 w=119 b=98.  The `$`, `0`, `w`
cases and a successful `b` scan `return` before the clamp; every other path
ends in `cursor_clamp`. -/
def editor_move_cursor (s : EditorConfig) (key : Nat) : Option EditorConfig :=
  let n : Int := (s.rows.length : Int)
  match key with
  | 106 => cursor_clamp { s with cy := if s.cy < n - 1 then s.cy + 1 else s.cy }
  | 107 => cursor_clamp { s with cy := if s.cy ≠ 0 then s.cy - 1 else s.cy }
  | 104 => cursor_clamp { s with cx := if s.cx > 0 then s.cx - 1 else s.cx }
  | 108 =>
    if s.cy < 0 then none
    else
      let len : Int := ((s.rows.getD s.cy.toNat []).length : Int)
      cursor_clamp { s with cx := if s.cy < n ∧ s.cx < len - 1 then s.cx + 1 else s.cx }
  | 4 => cursor_clamp { s with cy := if s.cy < n - 1 - 10 then s.cy + 10 else n - 1 }
  | 21 => cursor_clamp { s with cy := if s.cy > 10 then s.cy - 10 else 0 }
  | 36 =>
    if s.cy < 0 ∨ n ≤ s.cy then none
    else some { s with cx := ((s.rows.getD s.cy.toNat []).length : Int) - 1 }
  | 48 => some { s with cx := 0 }
  | 119 =>
    if s.cy < 0 ∨ n ≤ s.cy then none
    else (editor_move_w (s.rows.getD s.cy.toNat []) s.cx).map (fun v => { s with cx := v })
  | 98 =>
    if s.cx < 0 then cursor_clamp s
    else if s.cy < 0 ∨ n ≤ s.cy then none
    else
      match editor_move_b (s.rows.getD s.cy.toNat []) s.cx with
      | none => none
      | some (some v) => some { s with cx := v }
      | some none => cursor_clamp s
  | _ => cursor_clamp s

/-- The command-line input buffer of `editor_cli_prompt` (candy.c:270-274):
a 20-byte `malloc` allocation holding `':'` plus the typed characters, NUL
terminated.  `content` lists the bytes before the NUL; `oob` records whether
any store has landed at offset ≥ 20, outside the allocation. -/
structure CliBuf where
  content : List Nat
  oob : Bool
deriving DecidableEq, Repr

/-- The final `else` of the prompt's read loop (candy.c:298-306): a keystroke
with `buflen ≥ bufsize` is dropped; otherwise the byte is stored at offset
`buflen` and the NUL at `buflen + 1` — which is offset 20, one past the
allocation, when `buflen = 19`. -/
def cli_key (b : CliBuf) (c : Nat) : CliBuf :=
  if 20 ≤ b.content.length then b
  else { content := b.content ++ [c], oob := b.oob || decide (20 ≤ b.content.length + 1) }

/-- Exit status of the prompt's read loop: Enter submits the buffer, Escape
or Backspace-on-empty aborts back to View, and an exhausted key stream means
the loop is still blocked in `editor_read_key`. -/
inductive CliLoopResult
  | submit (b : CliBuf) (s : EditorConfig)
  | abort (s : EditorConfig)
  | starved
deriving DecidableEq, Repr

/-- The read-and-echo loop of `editor_cli_prompt` (candy.c:276-307), driven
by the pending keystroke list. -/
def editor_cli_loop (s : EditorConfig) (b : CliBuf) : List Nat → CliLoopResult
  | [] => CliLoopResult.starved
  | c :: rest =>
    if c = 13 then CliLoopResult.submit b { s with status_msg := StatusMsg.empty }
    else if c = 27 then
      CliLoopResult.abort { s with status_msg := StatusMsg.empty, mode := Mode.VIEW }
    else if c = 127 then
      if b.content.length = 1 then
        CliLoopResult.abort { s with status_msg := StatusMsg.empty, mode := Mode.VIEW }
      else editor_cli_loop s { b with content := b.content.dropLast } rest
    else editor_cli_loop s (cli_key b c) rest

/-- The space-skipping loop of the `w` command parse (candy.c:317-321):
advances from offset `i` past spaces, stopping at a non-space byte (a NUL is
read as 0 via `getD`) or at the end of the 20-byte buffer. -/
def fn_skip_spaces (buf : List Nat) (i : Nat) : Nat :=
  if h : i < 20 ∧ buf.getD i 0 = 32 then fn_skip_spaces buf (i + 1) else i
termination_by 20 - i
decreasing_by omega

/-- The filename-copying loop of the `w` command parse (candy.c:323-331):
copies bytes until a space, a NUL, the end of the 20-byte buffer, or 254
copied characters. -/
def fn_take (buf : List Nat) (i : Nat) (acc : List Nat) : List Nat :=
  if h : acc.length < 254 ∧ i < 20 ∧ buf.getD i 0 ≠ 32 ∧ buf.getD i 0 ≠ 0 then
    fn_take buf (i + 1) (acc ++ [buf.getD i 0])
  else acc
termination_by 20 - i
decreasing_by omega

/-- Result of dispatching a submitted colon command: either the editor keeps
running in state `s`, or the process exits (the `exit(0)` calls of
candy.c:340 and candy.c:347). -/
inductive CliResult
  | stay (s : EditorConfig)
  | exited
deriving DecidableEq, Repr

/-- The dispatch switch of `editor_cli_prompt` (candy.c:311-354), on the
submitted buffer bytes: `w` (119) saves under the parsed filename if any,
`q` (113) exits unless the buffer is dirty, `q!` exits unconditionally, and
anything else reports an undefined command. -/
def editor_cli_dispatch (io_ok : Bool) (buf : List Nat) (s : EditorConfig) : CliResult :=
  if buf.getD 1 0 = 119 then
    let fname := fn_take buf (fn_skip_spaces buf 2) []
    CliResult.stay (editor_save io_ok (if fname.length ≠ 0 then some fname else none) s)
  else if buf.getD 1 0 = 113 then
    if buf.getD 2 0 = 33 then CliResult.exited
    else if s.dirty ≠ 0 then CliResult.stay { s with status_msg := StatusMsg.saveBeforeQuit }
    else CliResult.exited
  else CliResult.stay { s with status_msg := StatusMsg.undefinedCmd }

/-- `editor_cli_prompt` (candy.c:267-355): run the read loop starting from
the buffer `":"`, then dispatch on Enter.  `none` stands for the loop still
blocking on input. -/
def editor_cli_prompt (io_ok : Bool) (keys : List Nat) (s : EditorConfig) : Option CliResult :=
  match editor_cli_loop s { content := [58], oob := false } keys with
  | CliLoopResult.starved => none
  | CliLoopResult.abort s1 => some (CliResult.stay s1)
  | CliLoopResult.submit b s1 => some (editor_cli_dispatch io_ok b.content s1)

/-- The ten `'_'` bytes written into `config.cmd.chars` whenever a command
resolves (candy.c:257-262). -/
def CMD_RESET : List Nat := List.replicate 10 95

/-- The `if (exec)` epilogue of `editor_process_cmd`: clear the pending
buffer back to the `'_'` sentinel and zero its size. -/
def cmd_finish (s : EditorConfig) : Option CliResult :=
  some (CliResult.stay { s with cmd_size := 0, cmd_chars := CMD_RESET })

/-- `editor_process_cmd` (candy.c:163-263).  The keystroke is stored at
`cmd.chars[cmd.size]` — an out-of-bounds write once `cmd.size ≥ 10` — and the
switch runs on `cmd.chars[0]` (with `cmd.chars[1]` for the `d`/`g` prefixes,
where `'_'` = 95 means "no second byte yet").  Key bytes: `:`=58 `\r`=13
i=105 o=111 O=79 Z=90 x=120 X=88 G=71 d=100 g=103, movement keys as in
`editor_move_cursor`.  `prompt_keys` feeds the nested CLI prompt. -/
def editor_process_cmd (io_ok : Bool) (prompt_keys : List Nat) (s : EditorConfig)
    (c : Nat) : Option CliResult :=
  if 10 ≤ s.cmd_size then none
  else
    let chars := s.cmd_chars.set s.cmd_size c
    let t : EditorConfig := { s with cmd_chars := chars, cmd_size := s.cmd_size + 1 }
    match chars.getD 0 0 with
    | 58 =>
      match editor_cli_prompt io_ok prompt_keys t with
      | none => none
      | some CliResult.exited => some CliResult.exited
      | some (CliResult.stay t1) => cmd_finish t1
    | 13 => cmd_finish t
    | 105 => cmd_finish { t with mode := Mode.INSERT }
    | 111 =>
      cmd_finish { editor_insert_row t (t.cy + 1) [] with
                   mode := Mode.INSERT, cy := t.cy + 1, cx := 0 }
    | 79 =>
      cmd_finish { editor_insert_row t (t.cy - 1) [] with
                   mode := Mode.INSERT, cy := t.cy - 1, cx := 0 }
    | 90 => cmd_finish (editor_save io_ok none t)
    | 120 => cmd_finish t
    | 88 => (editor_del_char t (-1) (-1)).bind cmd_finish
    | 71 => cmd_finish { t with cy := (t.rows.length : Int) - 1 }
    | 100 =>
      match chars.getD 1 0 with
      | 95 => some (CliResult.stay t)
      | 100 => (editor_del_row t t.cy).bind cmd_finish
      | _ => cmd_finish t
    | 103 =>
      match chars.getD 1 0 with
      | 95 => some (CliResult.stay t)
      | 103 => cmd_finish { t with cy := 0 }
      | _ => cmd_finish t
    | 98 | 119 | 36 | 48 | 4 | 21 | 106 | 107 | 104 | 108 =>
      (editor_move_cursor t c).bind cmd_finish
    | _ => cmd_finish t

/-- `editor_process_keypress` (candy.c:675-699): View keys go through the
command buffer; Insert mode handles Escape (27) / Ctrl-C (3), Enter (13),
Backspace (127), and inserts any other byte. -/
def editor_process_keypress (io_ok : Bool) (prompt_keys : List Nat) (s : EditorConfig)
    (c : Nat) : Option CliResult :=
  match s.mode with
  | Mode.VIEW => editor_process_cmd io_ok prompt_keys s c
  | Mode.INSERT =>
    if c = 27 ∨ c = 3 then some (CliResult.stay { s with mode := Mode.VIEW })
    else if c = 13 then (editor_insert_new_line s).map CliResult.stay
    else if c = 127 then (editor_del_char s (-1) (-1)).map CliResult.stay
    else (editor_insert_char s c).map CliResult.stay

/-- The keystroke half of the main loop (candy.c:853-857): feed a list of
keystrokes one by one through `editor_process_keypress`, stopping on an
`exit(0)` or on undefined behaviour. -/
def run_keys (io_ok : Bool) (prompt_keys : List Nat) (s : EditorConfig) :
    List Nat → Option CliResult
  | [] => some (CliResult.stay s)
  | c :: cs =>
    match editor_process_keypress io_ok prompt_keys s c with
    | some (CliResult.stay s1) => run_keys io_ok prompt_keys s1 cs
    | some CliResult.exited => some CliResult.exited
    | none => none

/-- A freshly started editor with a 24x80 terminal and no file: empty buffer,
View mode, cursor at the origin (candy.c:822-842). -/
def fresh : EditorConfig := init_editor 24 80

/-- The buffer `["a\nb"]` (one row containing a literal newline byte),
reached from a fresh editor purely through insert operations: `i` then the
three Insert-mode bytes 97, 10, 98. -/
def C2_bad_state : EditorConfig :=
  { fresh with mode := Mode.INSERT, cx := 3, rows := [[97, 10, 98]],
               dirty := 4, cmd_chars := CMD_RESET }

/-- The buffer `["abc"]` with the cursor at column 1 of row 0, in View mode:
the concrete configuration on which the `x`/`X` behaviour is settled. -/
def C7_state : EditorConfig := { fresh with rows := [[97, 98, 99]], cx := 1 }

/-- The buffer `["ab"]` with the cursor at column 1 of row 0: the concrete
configuration for the split/join witness. -/
def C5_state : EditorConfig := { fresh with rows := [[97, 98]], cx := 1 }


/-- C1.  The claim states that after any sequence of View/Insert keystrokes
`0 ≤ cursorLine ≤ max(numRows-1,0)` holds.  It fails on the code: in a fresh
empty buffer (`numRows = 0`, so the claimed bound is `cursorLine = 0`),
pressing `G` executes `config.cy = config.numrows - 1` (candy.c:223) with no
clamp, leaving the cursor line at `-1`.  (Pressing `O` on the top row
likewise drives `cy` to `-1` via candy.c:205-208.) -/
theorem C1_G_on_empty_buffer_drives_cursor_negative :
    run_keys true [] fresh [71] =
      some (CliResult.stay { fresh with cy := -1, cmd_chars := CMD_RESET }) ∧
    ({ fresh with cy := -1, cmd_chars := CMD_RESET }).cy < 0 := by
  constructor
  · rfl
  · decide


/-- C2, counterexample.  The buffer `["a\nb"]` is reachable purely through
insert operations (Insert mode accepts byte 10, candy.c:694-696), but
serialising it gives `"a\nb\n"`, which loads back as the two rows
`["a","b"]`, not the original single row. -/
theorem C2_roundtrip_fails_on_embedded_newline :
    run_keys true [] fresh [105, 97, 10, 98] = some (CliResult.stay C2_bad_state) ∧
    editor_load_bytes (editor_rows_to_string C2_bad_state.rows) = [[97], [98]] ∧
    [[97], [98]] ≠ C2_bad_state.rows := by
  refine ⟨by rfl, by rfl, by decide⟩

/-- C4.  The claim states `deleteRow(at)` is a no-op for every `at` outside
`[0, numRows)`.  It fails at `at = numRows`: the guard at candy.c:412 is
`at < 0 || at > config.numrows`, so `at = numRows` (here 1, on a one-row
buffer) enters the deletion path, freeing `row[numrows].chars` and calling
`memmove` with byte count `-1` — undefined behaviour (`none`), and in any
case `numrows--` and `dirty++`, not the required no-op. -/
theorem C4_del_row_at_numrows_is_not_a_noop :
    editor_del_row { fresh with rows := [[97]] } 1 = none ∧
    editor_del_row { fresh with rows := [[97]] } 1 ≠
      some { fresh with rows := [[97]] } := by
  refine ⟨by rfl, by decide⟩

/-- C6.  The claim states that `O` inserts a new empty row immediately above
row `L` and puts the cursor on the new row.  On the buffer `["a","b"]` with
the cursor on row 1, the code calls `editor_insert_row(config.cy - 1, ...)`
(candy.c:205), inserting the empty row at index 0 — above row 0, not
immediately above row 1 — and then moves the cursor to line 0.  The claim
demands `["a","","b"]` with the cursor on line 1. -/
theorem C6_O_inserts_above_the_previous_row :
    editor_process_cmd true [] { fresh with rows := [[97], [98]], cy := 1 } 79 =
      some (CliResult.stay
        { fresh with rows := [[], [97], [98]], cy := 0, mode := Mode.INSERT,
                     dirty := 1, cmd_chars := CMD_RESET }) ∧
    ([[], [97], [98]] : List (List Nat)) ≠ [[97], [], [98]] := by
  refine ⟨by rfl, by decide⟩


/-- C7, counterexample.  The claim states that `x` deletes the character
under the cursor.  The `x` case of `editor_process_cmd` (candy.c:215-217)
only sets `exec = 1` and performs no deletion: on `["abc"]` with the cursor
at column 1 the buffer is left unchanged, where the claim demands `["ac"]`
and an incremented dirty counter. -/
theorem C7_x_deletes_nothing :
    editor_process_cmd true [] C7_state 120 =
      some (CliResult.stay { C7_state with cmd_chars := CMD_RESET }) ∧
    ({ C7_state with cmd_chars := CMD_RESET }).rows ≠ [[97, 99]] ∧
    ({ C7_state with cmd_chars := CMD_RESET }).dirty = 0 := by
  refine ⟨by rfl, by decide, by rfl⟩

/-- C8.  The claim states every pending command resolves and clears the
pending buffer after at most two keystrokes, an unrecognised second
character discarding it silently.  It fails for the second character `'_'`
(byte 95): the code uses `'_'` as the empty-slot sentinel (candy.c:229-230),
so after `x` (which resets the slots to `'_'`), then `d`, then `_`, the
pending buffer holds 2 bytes and is never cleared — a following `j` is also
swallowed (`cmd.size` grows to 3, the cursor does not move), and after
enough keys the store at `cmd.chars[cmd.size]` (candy.c:166) overruns the
10-byte array. -/
theorem C8_underscore_jams_the_pending_buffer :
    run_keys true [] { fresh with rows := [[97]] } [120, 100, 95, 106] =
      some (CliResult.stay
        { fresh with rows := [[97]], cmd_size := 3,
                     cmd_chars := [100, 95, 106, 95, 95, 95, 95, 95, 95, 95] }) ∧
    (3 : Nat) ≠ 0 := by
  refine ⟨by rfl, by decide⟩

/-- C10.  The claim states that every store of a typed character and its
terminating NUL stays within the prompt's 20-byte allocation.  It fails on
the 19th typed character: with `buflen = 19` the guard `buflen >= bufsize`
(candy.c:299) does not fire, the character is stored at offset 19 and its
NUL terminator at offset `buflen + 1 = 20` (candy.c:303) — one byte past the
`malloc(20)` allocation.  The `oob` flag of the model records that store. -/
theorem C10_prompt_nul_store_lands_outside_the_buffer :
    editor_cli_loop fresh { content := [58], oob := false }
        (List.replicate 19 97 ++ [13]) =
      CliLoopResult.submit { content := 58 :: List.replicate 19 97, oob := true }
        { fresh with status_msg := StatusMsg.empty } := by
  rfl

/-- C9.  After `editor_scroll`, the cursor line lies in
`[rowOffset, rowOffset + screen_rows)` and the cursor column lies in
`[colOffset, colOffset + screen_cols)`, for every prior pair of offsets,
every screen of at least 1x1, and every non-negative cursor position
(candy.c:747-765). -/
theorem C9_scroll_restores_viewport_invariant (s : EditorConfig)
    (hrows : 1 ≤ s.screen_rows) (hcols : 1 ≤ s.screen_cols)
    (hcy : 0 ≤ s.cy) (hcx : 0 ≤ s.cx) :
    (editor_scroll s).rowoff ≤ (editor_scroll s).cy ∧
    (editor_scroll s).cy < (editor_scroll s).rowoff + (editor_scroll s).screen_rows ∧
    (editor_scroll s).coloff ≤ (editor_scroll s).cx ∧
    (editor_scroll s).cx < (editor_scroll s).coloff + (editor_scroll s).screen_cols := by
  simp only [editor_scroll]
  split_ifs <;> refine ⟨by omega, by omega, by omega, by omega⟩

/-- C9, witness: the invariant instantiated at a concrete state with stale
offsets (rowoff 7, coloff 9, cursor at (3,2), 22x80 screen). -/
theorem C9_scroll_witness :
    (1 ≤ ({ fresh with rowoff := 7, coloff := 9, cy := 3, cx := 2 } : EditorConfig).screen_rows ∧
      0 ≤ ({ fresh with rowoff := 7, coloff := 9, cy := 3, cx := 2 } : EditorConfig).cy) ∧
    ((editor_scroll { fresh with rowoff := 7, coloff := 9, cy := 3, cx := 2 }).rowoff ≤
        (editor_scroll { fresh with rowoff := 7, coloff := 9, cy := 3, cx := 2 }).cy ∧
      (editor_scroll { fresh with rowoff := 7, coloff := 9, cy := 3, cx := 2 }).cy <
        (editor_scroll { fresh with rowoff := 7, coloff := 9, cy := 3, cx := 2 }).rowoff +
          (editor_scroll { fresh with rowoff := 7, coloff := 9, cy := 3, cx := 2 }).screen_rows ∧
      (editor_scroll { fresh with rowoff := 7, coloff := 9, cy := 3, cx := 2 }).coloff ≤
        (editor_scroll { fresh with rowoff := 7, coloff := 9, cy := 3, cx := 2 }).cx ∧
      (editor_scroll { fresh with rowoff := 7, coloff := 9, cy := 3, cx := 2 }).cx <
        (editor_scroll { fresh with rowoff := 7, coloff := 9, cy := 3, cx := 2 }).coloff +
          (editor_scroll { fresh with rowoff := 7, coloff := 9, cy := 3, cx := 2 }).screen_cols) :=
  ⟨⟨by decide, by decide⟩,
    C9_scroll_restores_viewport_invariant _ (by decide) (by decide) (by decide) (by decide)⟩

/-- C3.  The dirty-counter laws, read off candy.c: (1) `editor_open` ends
with `dirty = 0` (line 544); (2)-(5) every in-range row insert, character
insert, character delete and row delete leaves `dirty` positive (lines 406,
431, 451, 418); (6) a successful save resets `dirty` to 0 when a filename is
available (line 575); (7) `:q` exits only with `dirty = 0` and otherwise
just sets an error message and keeps running (lines 341-348); (8) `:q!`
exits regardless of `dirty` (lines 337-340). -/
theorem C3_dirty_counter_laws :
    (∀ contents fname s, (editor_open contents fname s).dirty = 0) ∧
    (∀ (s : EditorConfig) (pos : Int) content, 0 ≤ pos → pos ≤ (s.rows.length : Int) →
      0 < (editor_insert_row s pos content).dirty) ∧
    (∀ s idx pos c, 0 < (editor_row_insert_char_st s idx pos c).dirty) ∧
    (∀ (s : EditorConfig) idx (pos : Int), 0 ≤ pos →
      pos ≤ ((s.rows.getD idx []).length : Int) →
      0 < (editor_row_del_char_st s idx pos).dirty) ∧
    (∀ (s : EditorConfig) (pos : Int), 0 ≤ pos → pos < (s.rows.length : Int) →
      ∃ t, editor_del_row s pos = some t ∧ 0 < t.dirty) ∧
    (∀ nf s, nf ≠ none ∨ s.filename ≠ none → (editor_save true nf s).dirty = 0) ∧
    (∀ io_ok s, s.dirty ≠ 0 →
      editor_cli_prompt io_ok [113, 13] s =
        some (CliResult.stay { s with status_msg := StatusMsg.saveBeforeQuit })) ∧
    (∀ io_ok s, s.dirty = 0 →
      editor_cli_prompt io_ok [113, 13] s = some CliResult.exited) ∧
    (∀ io_ok s, editor_cli_prompt io_ok [113, 33, 13] s = some CliResult.exited) := by
  refine ⟨?_, ?_, ?_, ?_, ?_, ?_, ?_, ?_, ?_⟩
  · intro contents fname s
    simp [editor_open]
  · intro s pos content h0 h1
    simp only [editor_insert_row]
    rw [if_neg (by omega)]
    exact Nat.succ_pos _
  · intro s idx pos c
    simp [editor_row_insert_char_st]
  · intro s idx pos h0 h1
    simp only [editor_row_del_char_st]
    rw [if_neg (by omega)]
    split <;> exact Nat.succ_pos _
  · intro s pos h0 h1
    refine ⟨{ s with rows := s.rows.eraseIdx pos.toNat, dirty := s.dirty + 1 }, ?_, ?_⟩
    · simp only [editor_del_row]
      rw [if_neg (by omega), if_neg (by omega)]
    · exact Nat.succ_pos _
  · intro nf s h
    simp only [editor_save]
    rw [if_neg (by tauto)]
    simp
  · intro io_ok s h
    simp [editor_cli_prompt, editor_cli_loop, cli_key, editor_cli_dispatch, h]
  · intro io_ok s h
    simp [editor_cli_prompt, editor_cli_loop, cli_key, editor_cli_dispatch, h]
  · intro io_ok s
    simp [editor_cli_prompt, editor_cli_loop, cli_key, editor_cli_dispatch]

/-- C3, witness: each dirty-counter law instantiated at a concrete input
(load of `"a\n"`, edits on the buffer `["a"]`, a save with dirty 3, and the
`:q` / `:q!` commands with dirty 3 and 0). -/
theorem C3_dirty_counter_laws_witness :
    (editor_open [97, 10] [102] fresh).dirty = 0 ∧
    0 < (editor_insert_row { fresh with rows := [[97]] } 1 [98]).dirty ∧
    0 < (editor_row_insert_char_st { fresh with rows := [[97]] } 0 1 98).dirty ∧
    0 < (editor_row_del_char_st { fresh with rows := [[97]] } 0 0).dirty ∧
    (∃ t, editor_del_row { fresh with rows := [[97]] } 0 = some t ∧ 0 < t.dirty) ∧
    (editor_save true (some [102]) { fresh with dirty := 3 }).dirty = 0 ∧
    editor_cli_prompt true [113, 13] { fresh with dirty := 3 } =
      some (CliResult.stay
        { fresh with dirty := 3, status_msg := StatusMsg.saveBeforeQuit }) ∧
    editor_cli_prompt true [113, 13] fresh = some CliResult.exited ∧
    editor_cli_prompt true [113, 33, 13] { fresh with dirty := 3 } =
      some CliResult.exited :=
  ⟨C3_dirty_counter_laws.1 [97, 10] [102] fresh,
    C3_dirty_counter_laws.2.1 _ 1 [98] (by decide) (by decide),
    C3_dirty_counter_laws.2.2.1 _ 0 1 98,
    C3_dirty_counter_laws.2.2.2.1 _ 0 0 (by decide) (by decide),
    C3_dirty_counter_laws.2.2.2.2.1 _ 0 (by decide) (by decide),
    C3_dirty_counter_laws.2.2.2.2.2.1 (some [102]) _ (Or.inl (by decide)),
    C3_dirty_counter_laws.2.2.2.2.2.2.1 true _ (by decide),
    C3_dirty_counter_laws.2.2.2.2.2.2.2.1 true fresh rfl,
    C3_dirty_counter_laws.2.2.2.2.2.2.2.2 true _⟩

theorem getline_split_newline_block (r t : List Nat) (hr : 10 ∉ r) :
    getline_split (r ++ 10 :: t) = (r ++ [10]) :: getline_split t := by
  induction r with
  | nil => simp [getline_split]
  | cons c r ih =>
    have hc : ¬ (c = 10) := fun h => hr (by simp [h])
    have hr' : 10 ∉ r := fun h => hr (List.mem_cons_of_mem _ h)
    simp [getline_split, hc, ih hr']

theorem strip_crlf_of_clean (r : List Nat) (h10 : 10 ∉ r)
    (h13 : r.getLast? ≠ some 13) :
    strip_crlf (r ++ [10]) = r := by
  unfold strip_crlf
  rw [List.reverse_append]
  simp only [List.reverse_cons, List.reverse_nil, List.nil_append, List.singleton_append]
  rw [List.dropWhile_cons]
  norm_num
  cases hrev : r.reverse with
  | nil =>
    have : r = [] := by simpa using congrArg List.reverse hrev
    simp [this]
  | cons hd tl =>
    rw [List.dropWhile_cons]
    have hmem : hd ∈ r := by
      have : hd ∈ r.reverse := by rw [hrev]; exact List.mem_cons_self _ _
      simpa using this
    have hlast : r.getLast? = some hd := by
      rw [List.getLast?_eq_head?_reverse, hrev]
      rfl
    have h1 : ¬ (hd = 10) := fun e => h10 (e ▸ hmem)
    have h2 : ¬ (hd = 13) := fun e => h13 (by rw [hlast, e])
    rw [if_neg (by simp [h1, h2])]
    have := congrArg List.reverse hrev
    simpa using this.symm

/-- C2, amended.  `load(save(buffer))` reproduces the ordered row contents
for every buffer whose rows contain no newline byte (10) and do not end in a
carriage-return byte (13); rows reachable through inserting a literal `\n`
byte escape this hypothesis and break the round trip. -/
theorem C2_roundtrip_amended (rows : List (List Nat))
    (h : ∀ r ∈ rows, 10 ∉ r ∧ r.getLast? ≠ some 13) :
    editor_load_bytes (editor_rows_to_string rows) = rows := by
  induction rows with
  | nil => rfl
  | cons r rs ih =>
    have hr := h r (List.mem_cons_self _ _)
    have hrs := fun x hx => h x (List.mem_cons_of_mem _ hx)
    unfold editor_load_bytes editor_rows_to_string
    rw [List.foldr_cons, getline_split_newline_block r _ hr.1]
    simp only [List.map_cons]
    rw [strip_crlf_of_clean r hr.1 hr.2]
    have := ih hrs
    simp only [editor_load_bytes, editor_rows_to_string] at this
    rw [this]

/-- C2, witness: the round trip at the concrete buffer `["a","bc"]`. -/
theorem C2_roundtrip_amended_witness :
    (∀ r ∈ ([[97], [98, 99]] : List (List Nat)), 10 ∉ r ∧ r.getLast? ≠ some 13) ∧
    editor_load_bytes (editor_rows_to_string [[97], [98, 99]]) = [[97], [98, 99]] :=
  ⟨by decide, C2_roundtrip_amended [[97], [98, 99]] (by decide)⟩

/-- C7, amended.  In View mode `x` is recognised but deletes nothing (the
case at candy.c:215-217 only sets `exec`), leaving buffer, cursor and dirty
counter unchanged; `X` deletes the character before the cursor via
`editor_del_char(-1,-1)` (candy.c:218-221), shifting the cursor left and
incrementing the dirty counter. -/
theorem C7_x_X_amended (s : EditorConfig) (hsz : s.cmd_size = 0)
    (hlen : s.cmd_chars.length = 10)
    (hcy0 : 0 ≤ s.cy) (hcyn : s.cy < (s.rows.length : Int))
    (hcx0 : 0 < s.cx) (hcxl : s.cx ≤ ((s.rows.getD s.cy.toNat []).length : Int)) :
    editor_process_cmd true [] s 120 =
      some (CliResult.stay { s with cmd_size := 0, cmd_chars := CMD_RESET }) ∧
    editor_process_cmd true [] s 88 =
      some (CliResult.stay
        { s with rows := s.rows.set s.cy.toNat
                   ((s.rows.getD s.cy.toNat []).eraseIdx (s.cx - 1).toNat),
                 cx := s.cx - 1, dirty := s.dirty + 1,
                 cmd_size := 0, cmd_chars := CMD_RESET }) := by
  obtain ⟨a, l, hl⟩ : ∃ a l, s.cmd_chars = a :: l := by
    cases hc : s.cmd_chars with
    | nil => rw [hc] at hlen; simp at hlen
    | cons a l => exact ⟨a, l, rfl⟩
  constructor
  · simp [editor_process_cmd, hsz, hl, cmd_finish]
  · simp only [editor_process_cmd, hsz, hl]
    norm_num
    simp only [editor_del_char, editor_row_del_char_st, cmd_finish]
    rw [if_neg (by omega), if_neg (by omega), if_pos (by omega)]
    rw [if_neg (by omega), if_neg (by omega)]
    have hx : s.cx + (-1) = s.cx - 1 := by omega
    simp [hx]

theorem split_getD_left {α : Type} (l : List α) (k : Nat) (x y d : α) (hk : k < l.length) :
    ((l.insertIdx (k + 1) x).set k y).getD k d = y := by
  induction l generalizing k with
  | nil => simp at hk
  | cons a t ih =>
    cases k with
    | zero => simp [List.insertIdx_succ_cons]
    | succ k =>
      simp only [List.insertIdx_succ_cons, List.set_cons_succ, List.getD_cons_succ]
      exact ih k (by simpa using hk)

theorem split_getD_right {α : Type} (l : List α) (k : Nat) (x y d : α) (hk : k < l.length) :
    ((l.insertIdx (k + 1) x).set k y).getD (k + 1) d = x := by
  induction l generalizing k with
  | nil => simp at hk
  | cons a t ih =>
    cases k with
    | zero => simp [List.insertIdx_succ_cons, List.insertIdx_zero]
    | succ k =>
      simp only [List.insertIdx_succ_cons, List.set_cons_succ, List.getD_cons_succ]
      exact ih k (by simpa using hk)

theorem split_merge_cancel {α : Type} (l : List α) (k : Nat) (x : α) (d : α)
    (hk : k < l.length) :
    ((l.insertIdx (k + 1) x).set k (l.getD k d)).eraseIdx (k + 1) = l := by
  induction l generalizing k with
  | nil => simp at hk
  | cons a t ih =>
    cases k with
    | zero => simp [List.insertIdx_succ_cons, List.insertIdx_zero]
    | succ k =>
      simp only [List.insertIdx_succ_cons, List.set_cons_succ, List.getD_cons_succ,
        List.eraseIdx_cons_succ, List.cons.injEq, true_and]
      exact ih k (by simpa using hk)

theorem split_length {α : Type} (l : List α) (k : Nat) (x y : α) (hk : k < l.length) :
    ((l.insertIdx (k + 1) x).set k y).length = l.length + 1 := by
  rw [List.length_set, List.length_insertIdx _ _ (by omega)]

/-- C5.  Inserting a newline at `(line, col)` with `0 < col ≤ rowLength`
(splitting the row, the cursor moving to the start of the new row,
candy.c:456-470) and then immediately deleting backward at column 0 of that
new row (candy.c:483-500) restores exactly the original row sequence and
returns the cursor to `(line, col)`; only the dirty counter moves (by the
two mutations).  `editor_del_char s1 (-1) (-1)` is the Insert-mode
backspace call (candy.c:692). -/
theorem C5_split_then_backspace_restores_row (s : EditorConfig)
    (hcy0 : 0 ≤ s.cy) (hcyn : s.cy < (s.rows.length : Int))
    (hcx0 : 0 < s.cx) (hcxl : s.cx ≤ ((s.rows.getD s.cy.toNat []).length : Int)) :
    (editor_insert_new_line s).bind (fun s1 => editor_del_char s1 (-1) (-1)) =
      some { s with dirty := s.dirty + 2 } := by
  have hk : s.cy.toNat < s.rows.length := by omega
  have hc1 : (s.cy + 1).toNat = s.cy.toNat + 1 := by omega
  have hcx : (s.cx.toNat : Int) = s.cx := by omega
  have hcle : s.cx.toNat ≤ (s.rows.getD s.cy.toNat []).length := by omega
  have step1 : editor_insert_new_line s =
      some { s with
             rows := (s.rows.insertIdx (s.cy.toNat + 1)
                        ((s.rows.getD s.cy.toNat []).drop s.cx.toNat)).set s.cy.toNat
                      ((s.rows.getD s.cy.toNat []).take s.cx.toNat)
             cy := s.cy + 1
             cx := 0
             dirty := s.dirty + 1 } := by
    simp only [editor_insert_new_line, editor_insert_row]
    rw [if_neg (by omega), if_neg (by omega), if_neg (by omega), if_neg (by omega), hc1]
  have hlen2 : ((s.rows.insertIdx (s.cy.toNat + 1)
      ((s.rows.getD s.cy.toNat []).drop s.cx.toNat)).set s.cy.toNat
      ((s.rows.getD s.cy.toNat []).take s.cx.toNat)).length = s.rows.length + 1 :=
    split_length _ _ _ _ hk
  have hgl := split_getD_left s.rows s.cy.toNat
    ((s.rows.getD s.cy.toNat []).drop s.cx.toNat)
    ((s.rows.getD s.cy.toNat []).take s.cx.toNat) [] hk
  have hgr := split_getD_right s.rows s.cy.toNat
    ((s.rows.getD s.cy.toNat []).drop s.cx.toNat)
    ((s.rows.getD s.cy.toNat []).take s.cx.toNat) [] hk
  rw [step1]
  rw [Option.some_bind]
  simp only [editor_del_char]
  rw [if_neg (by simp only [hlen2]; push_cast; omega)]
  rw [if_neg (by simp only [hlen2]; push_cast; omega)]
  rw [if_neg (by omega)]
  rw [if_neg (by omega)]
  rw [hc1]
  simp only [Nat.add_sub_cancel]
  rw [hgl, hgr]
  simp only [editor_row_append_string_st]
  rw [hgl, List.take_append_drop, List.set_set]
  simp only [editor_del_row]
  rw [if_neg (by rw [List.length_set, List.length_insertIdx _ _ (by omega)]; push_cast; omega)]
  rw [if_neg (by rw [List.length_set, List.length_insertIdx _ _ (by omega)]; push_cast; omega)]
  rw [hc1]
  rw [split_merge_cancel s.rows s.cy.toNat _ [] hk]
  rw [Option.map_some']
  have h1 : s.cy + 1 - 1 = s.cy := by omega
  have h2 : (List.take s.cx.toNat (s.rows.getD s.cy.toNat [])).length = s.cx.toNat := by
    rw [List.length_take]
    exact Nat.min_eq_left hcle
  have h3 : s.dirty + 1 + 1 = s.dirty + 2 := by omega
  simp only [h1, h2, h3, hcx]

/-- C5, witness: the split/join inverse at the buffer `["ab"]`, cursor
`(0,1)`. -/
theorem C5_split_then_backspace_witness :
    ((0 : Int) ≤ C5_state.cy ∧ C5_state.cy < (C5_state.rows.length : Int) ∧
      (0 : Int) < C5_state.cx ∧
      C5_state.cx ≤ ((C5_state.rows.getD C5_state.cy.toNat []).length : Int)) ∧
    (editor_insert_new_line C5_state).bind (fun s1 => editor_del_char s1 (-1) (-1)) =
      some { C5_state with dirty := C5_state.dirty + 2 } :=
  ⟨⟨by decide, by decide, by decide, by decide⟩,
    C5_split_then_backspace_restores_row C5_state (by decide) (by decide) (by decide)
      (by decide)⟩

/-- C7, amended, witness: `x` and `X` on the buffer `["abc"]` with the
cursor at `(0,1)`. -/
theorem C7_x_X_amended_witness :
    (C7_state.cmd_size = 0 ∧ C7_state.cmd_chars.length = 10 ∧
      (0 : Int) ≤ C7_state.cy ∧ C7_state.cy < (C7_state.rows.length : Int) ∧
      (0 : Int) < C7_state.cx ∧
      C7_state.cx ≤ ((C7_state.rows.getD C7_state.cy.toNat []).length : Int)) ∧
    (editor_process_cmd true [] C7_state 120 =
      some (CliResult.stay { C7_state with cmd_size := 0, cmd_chars := CMD_RESET }) ∧
    editor_process_cmd true [] C7_state 88 =
      some (CliResult.stay
        { C7_state with
            rows := C7_state.rows.set C7_state.cy.toNat
              ((C7_state.rows.getD C7_state.cy.toNat []).eraseIdx
                (C7_state.cx - 1).toNat),
            cx := C7_state.cx - 1, dirty := C7_state.dirty + 1,
            cmd_size := 0, cmd_chars := CMD_RESET })) :=
  ⟨⟨rfl, rfl, by decide, by decide, by decide, by decide⟩,
    C7_x_X_amended C7_state rfl rfl (by decide) (by decide) (by decide) (by decide)⟩
